import Mathlib

/-!
Shallow embedding of `src/backend/game/urls.py`: the route table of the
bingo-django game app, together with the lookup operations the spec
attributes to the surrounding framework.
-/

/-- Modelled from the spec: the two view callables `board_view` and
`bingo_view` are imported from `.views`, whose source is not part of this
excerpt; the spec treats them as two distinct external handler functions. -/
inductive Handler where
  | board_view : Handler
  | bingo_view : Handler
deriving DecidableEq, Repr

/-- Embedding of a route table entry: per the spec a Route has attributes
`path` (string, literal match), `handler` (reference to a callable) and
`name` (string identifier for reverse lookup). -/
structure Route where
  path : String
  handler : Handler
  name : String
deriving DecidableEq, Repr

/-- Embedding of `django.urls.path(route, view, name=...)` as used in the
source: it builds one route table entry from a literal path, a handler and
a route name. -/
def path (p : String) (h : Handler) (n : String) : Route :=
  ⟨p, h, n⟩

/-- Embedding of `urlpatterns` from `src/backend/game/urls.py`. -/
def urlpatterns : List Route :=
  [ path ("board") Handler.board_view ("board"),
    path ("bingo") Handler.bingo_view ("bingo") ]

/-- Modelled from the spec: forward lookup by literal path. The framework's
dispatcher matches the request path against the table in order; the first
entry whose `path` equals the request path wins, and an unmatched path
resolves to no route (falling through to the framework's not-found
behavior). -/
def resolve (table : List Route) (p : String) : Option Route :=
  table.find? (fun r => r.path == p)

/-- Modelled from the spec: reverse lookup by route name yields the
registered path of the first route carrying that name. -/
def reverse (table : List Route) (n : String) : Option String :=
  (table.find? (fun r => r.name == n)).map Route.path

/-- Modelled from the spec: the HTTP methods a request may carry. -/
inductive Method where
  | GET : Method
  | POST : Method
  | PUT : Method
  | DELETE : Method
  | PATCH : Method
  | HEAD : Method
  | OPTIONS : Method
deriving DecidableEq, Repr

/-- Modelled from the spec: an incoming request, reduced to the attributes
the routing layer can see: its HTTP method and its path. -/
structure Request where
  method : Method
  path : String
deriving DecidableEq, Repr

/-- Modelled from the spec: dispatching a request consults only its path;
method enforcement is the handler's or framework's responsibility and is
not expressed in the route table. -/
def dispatch (table : List Route) (req : Request) : Option Handler :=
  (resolve table req.path).map Route.handler

/-- Modelled from the spec: the result an operation on the route table can
return, either a resolved route or a reverse-looked-up path string. -/
inductive OpResult where
  | route : Option Route → OpResult
  | pathStr : Option String → OpResult
deriving DecidableEq, Repr

/-- Modelled from the spec: the operations performed on the route table
after startup: forward lookup by path and reverse lookup by name. -/
inductive TableOp where
  | lookupPath : String → TableOp
  | lookupName : String → TableOp

/-- Modelled from the spec: running one operation returns its result
together with the table the process keeps afterwards; lookups only read
the table. -/
def runOp (table : List Route) : TableOp → OpResult × List Route
  | TableOp.lookupPath p => (OpResult.route (resolve table p), table)
  | TableOp.lookupName n => (OpResult.pathStr (reverse table n), table)

/-- C1: looking up the literal path "board" in the route table resolves to
the handler `board_view` with route name "board". -/
theorem resolve_board :
    resolve urlpatterns ("board") = some ⟨"board", Handler.board_view, "board"⟩ := by
  decide

/-- C2: looking up the literal path "bingo" in the route table resolves to
the handler `bingo_view` with route name "bingo". -/
theorem resolve_bingo :
    resolve urlpatterns ("bingo") = some ⟨"bingo", Handler.bingo_view, "bingo"⟩ := by
  decide

/-- C3: reverse lookup round-trips with forward lookup on the named routes:
name "board" yields path "board" and name "bingo" yields path "bingo". -/
theorem reverse_roundtrip :
    reverse urlpatterns ("board") = some ("board") ∧
      reverse urlpatterns ("bingo") = some ("bingo") := by
  constructor <;> decide

/-- C4: path uniqueness invariant: distinct entries of the route table have
distinct path strings. -/
theorem paths_unique :
    ∀ i j : Fin urlpatterns.length, i ≠ j →
      (urlpatterns.get i).path ≠ (urlpatterns.get j).path := by
  decide

/-- Witness for C4 at the two concrete indices of the table. -/
theorem paths_unique_witness :
    (urlpatterns.get ⟨0, by decide⟩).path ≠ (urlpatterns.get ⟨1, by decide⟩).path :=
  paths_unique ⟨0, by decide⟩ ⟨1, by decide⟩ (by decide)

/-- C5: every path other than the literals "board" and "bingo" resolves to
no route: path matching is literal, so any other string is unmatched. -/
theorem resolve_other_none (p : String) (hb : p ≠ "board") (hg : p ≠ "bingo") :
    resolve urlpatterns p = none := by
  have h1 : (("board" : String) == p) = false := by
    rw [beq_eq_false_iff_ne]
    exact fun h => hb h.symm
  have h2 : (("bingo" : String) == p) = false := by
    rw [beq_eq_false_iff_ne]
    exact fun h => hg h.symm
  simp [resolve, urlpatterns, path, List.find?, h1, h2]

/-- Witness for C5 at the concrete unregistered path "board/". -/
theorem resolve_other_none_witness :
    resolve urlpatterns ("board/") = none :=
  resolve_other_none ("board/") (by decide) (by decide)

/-- C6: the route table is an ordered list of exactly two entries, the
triple ("board", board_view, "board") first and the triple
("bingo", bingo_view, "bingo") second. -/
theorem urlpatterns_entries :
    urlpatterns = [⟨"board", Handler.board_view, "board"⟩,
                   ⟨"bingo", Handler.bingo_view, "bingo"⟩] := by
  rfl

/-- C7: route resolution is independent of the HTTP method: two requests
with equal paths dispatch to the same handler whatever their methods. -/
theorem dispatch_method_independent (r₁ r₂ : Request) (h : r₁.path = r₂.path) :
    dispatch urlpatterns r₁ = dispatch urlpatterns r₂ := by
  unfold dispatch
  rw [h]

/-- Witness for C7: a GET and a POST to "board" dispatch identically. -/
theorem dispatch_method_independent_witness :
    dispatch urlpatterns ⟨Method.GET, "board"⟩ =
      dispatch urlpatterns ⟨Method.POST, "board"⟩ :=
  dispatch_method_independent ⟨Method.GET, "board"⟩ ⟨Method.POST, "board"⟩ rfl

/-- C8: the route table is immutable under its operations: running any
lookup operation leaves the table unchanged. -/
theorem runOp_preserves_table :
    ∀ op : TableOp, (runOp urlpatterns op).2 = urlpatterns := by
  intro op
  cases op <;> rfl

/-- C9: name uniqueness invariant: distinct entries of the route table have
distinct name strings, so reverse lookup is unambiguous. -/
theorem names_unique :
    ∀ i j : Fin urlpatterns.length, i ≠ j →
      (urlpatterns.get i).name ≠ (urlpatterns.get j).name := by
  decide

/-- Witness for C9 at the two concrete indices of the table. -/
theorem names_unique_witness :
    (urlpatterns.get ⟨0, by decide⟩).name ≠ (urlpatterns.get ⟨1, by decide⟩).name :=
  names_unique ⟨0, by decide⟩ ⟨1, by decide⟩ (by decide)

/-- C10: the path-to-handler mapping is injective over the table: distinct
entries reference distinct handler functions. -/
theorem handlers_distinct :
    ∀ i j : Fin urlpatterns.length, i ≠ j →
      (urlpatterns.get i).handler ≠ (urlpatterns.get j).handler := by
  decide

/-- Witness for C10 at the two concrete indices of the table. -/
theorem handlers_distinct_witness :
    (urlpatterns.get ⟨0, by decide⟩).handler ≠ (urlpatterns.get ⟨1, by decide⟩).handler :=
  handlers_distinct ⟨0, by decide⟩ ⟨1, by decide⟩ (by decide)
